import Mathlib

/-!
Verification of the polling filesystem watcher (`pkg/fswatcher`, function
`Watcher.tick`) of the cilium repository. The per-path body of the `tick`
loop is embedded as a pure step function `tickPath` over the stored `state`
of one tracked path and the observations (`Obs`) that the filesystem calls
`os.Lstat`, `os.Readlink` and `os.Stat` return in that poll cycle. Events
and errors sent on the `Events` / `Errors` channels are collected as lists.
-/

/-- Bitmask of file operations, as in the source: `Create Op = 1 << iota`,
then `Write`, then `Remove`. -/
abbrev Op := Nat

def Op.Create : Op := 1

def Op.Write : Op := 2

def Op.Remove : Op := 4

/-- Embeds `func (o Op) Has(h Op) bool { return o&h != 0 }`. -/
def Op.Has (o h : Op) : Bool := o &&& h != 0

/-- Embeds the `Event` struct: a path name and an operation bitmask. -/
structure Event where
  Name : String
  op : Op
deriving DecidableEq

/-- Embeds `func (e Event) Has(op Op) bool`. -/
def Event.Has (e : Event) (h : Op) : Bool := e.op.Has h

/-- Abstraction of the `os.FileInfo` fields `tick` consults: the symlink
mode bit (`info.Mode()&os.ModeSymlink != 0`), `Size()` and `ModTime()`. -/
structure FileInfo where
  isSymlink : Bool
  size : Int
  modTime : Int
deriving DecidableEq

/-- Abstraction of a Go error value as classified by `tick`: whether
`errors.As(err, &pathError)` succeeds for `*fs.PathError`, and whether
`os.IsNotExist(err)` holds. -/
structure GoError where
  isPathError : Bool
  isNotExist : Bool
deriving DecidableEq

/-- Outcome of an `os.Lstat` / `os.Stat` call: a `FileInfo` or an error. -/
inductive StatResult where
  | ok (fi : FileInfo)
  | err (e : GoError)
deriving DecidableEq

/-- Embeds the `state` struct: the tracked path, the lstat info of the path
itself, and the resolved symlink target path and its stat info. -/
structure state where
  path : String
  info : Option FileInfo
  target : String
  targetInfo : Option FileInfo
deriving DecidableEq

/-- The filesystem observations available to one tracked path in one poll
cycle: the result of `os.Lstat(path)`, the result of `os.Readlink(path)`
(`none` when it errors), and the result of `os.Stat` on the resolved
target (consulted only when the path is observed as a symlink and
readlink succeeded). -/
structure Obs where
  lstat : StatResult
  readlink : Option String
  statTarget : StatResult
deriving DecidableEq

/-- Modelled stand-in for Go `filepath.IsAbs` on Unix: the path begins
with a slash. -/
def filepathIsAbs (p : String) : Bool :=
  match p.data with
  | [] => false
  | c :: _ => c = '/'

/-- Modelled stand-in for Go `filepath.Dir`: the portion before the final
slash (the lexical cleaning done by `filepath.Clean` is elided; no theorem
depends on the concrete string, only on the resolution being a function of
the path and the link content). -/
def filepathDir (p : String) : String :=
  match (p.data.reverse.dropWhile (fun c => c ≠ '/')) with
  | [] => "."
  | _ :: rest => String.mk rest.reverse

/-- Modelled stand-in for Go `filepath.Join` of a directory and a relative
target (cleaning elided, see `filepathDir`). -/
def filepathJoin (dir rel : String) : String := dir ++ "/" ++ rel

/-- Embeds the target-resolution step of `tick`: a non-absolute readlink
result is resolved relative to the directory containing the watched path
(`filepath.Join(filepath.Dir(path), target)`). -/
def resolveTarget (path raw : String) : String :=
  if filepathIsAbs raw then raw else filepathJoin (filepathDir path) raw

/-- Result of processing one tracked path in one cycle: the state stored
in `w.tracked` afterwards, the events sent on the `Events` channel and the
errors sent on the `Errors` channel, in order. -/
structure StepResult where
  newState : state
  events : List Event
  errors : List GoError
deriving DecidableEq

/-- Embeds the symlink branch of `tick` (lines following
`info.Mode()&os.ModeSymlink != 0`), after the target has been resolved:
`targetInfo, err := os.Stat(target)`; the `errors.As(err, &pathError)`
branch emits `Remove` when the previous `targetInfo` was non-nil, any
other non-nil error is sent on the error channel; then the
create / write diff against the previous `targetInfo`, and finally
`newState.target = target; newState.targetInfo = targetInfo`. -/
def symlinkStep (oldState : state) (info : FileInfo) (target : String)
    (st : StatResult) : StepResult :=
  let path := oldState.path
  let targetInfo : Option FileInfo :=
    match st with
    | .ok ti => some ti
    | .err _ => none
  let removeEvents : List Event :=
    match st with
    | .err e =>
      if e.isPathError && oldState.targetInfo.isSome then
        [{ Name := path, op := Op.Remove }]
      else []
    | .ok _ => []
  let errs : List GoError :=
    match st with
    | .err e => if e.isPathError then [] else [e]
    | .ok _ => []
  let cwEvents : List Event :=
    match oldState.targetInfo, targetInfo with
    | none, some ti =>
      [{ Name := path,
         op := if ti.size > 0 then Op.Create ||| Op.Write else Op.Create }]
    | some oldTi, some ti =>
      if oldState.target != target || oldTi.size != ti.size ||
          oldTi.modTime != ti.modTime then
        [{ Name := path, op := Op.Write }]
      else []
    | _, none => []
  { newState :=
      { path := path, info := some info, target := target,
        targetInfo := targetInfo },
    events := removeEvents ++ cwEvents,
    errors := errs }

/-- Embeds the non-symlink branch of `tick`: a `Create` (with `Write`
OR-ed in when `info.Size() > 0`) when `oldState.info == nil`, a `Write`
when modification time or size changed, nothing otherwise; the stored
state keeps only the new lstat info (target fields stay empty). -/
def regularStep (oldState : state) (info : FileInfo) : StepResult :=
  let path := oldState.path
  let ns : state :=
    { path := path, info := some info, target := "", targetInfo := none }
  match oldState.info with
  | none =>
    { newState := ns,
      events :=
        [{ Name := path,
           op := if info.size > 0 then Op.Create ||| Op.Write else Op.Create }],
      errors := [] }
  | some oldInfo =>
    if info.modTime != oldInfo.modTime || info.size != oldInfo.size then
      { newState := ns, events := [{ Name := path, op := Op.Write }],
        errors := [] }
    else
      { newState := ns, events := [], errors := [] }

/-- Embeds the body of the `for _, oldState := range w.tracked` loop of
`Watcher.tick` for one tracked path. The branches, in source order:
`os.IsNotExist(err)` (emit `Remove` if the path existed before, store the
cleared state, otherwise leave the map untouched), any other lstat error
(send it, leave the map untouched), the symlink branch (a readlink error
skips the path entirely for the cycle; otherwise resolve a relative
target against the directory of the path and run `symlinkStep`), and the
plain-file branch (`regularStep`). -/
def tickPath (oldState : state) (o : Obs) : StepResult :=
  let path := oldState.path
  match o.lstat with
  | .err e =>
    if e.isNotExist then
      if oldState.info.isSome then
        { newState :=
            { path := path, info := none, target := "", targetInfo := none },
          events := [{ Name := path, op := Op.Remove }],
          errors := [] }
      else
        { newState := oldState, events := [], errors := [] }
    else
      { newState := oldState, events := [], errors := [e] }
  | .ok info =>
    if info.isSymlink then
      match o.readlink with
      | none => { newState := oldState, events := [], errors := [] }
      | some raw => symlinkStep oldState info (resolveTarget path raw) o.statTarget
    else
      regularStep oldState info

/-- The initial state an entry gets in the constructor `New`:
`tracked[f] = state{path: f}`. -/
def initState (p : String) : state :=
  { path := p, info := none, target := "", targetInfo := none }

/-- States of one tracked entry reachable from construction by any number
of poll cycles, each with arbitrary filesystem observations. -/
inductive Reachable : state → Prop
  | init (p : String) : Reachable (initState p)
  | step (s : state) (o : Obs) : Reachable s → Reachable (tickPath s o).newState

/-- The events a tracked path produces over a sequence of poll cycles,
concatenated in order; the stored state is threaded through `tickPath`. -/
def runEvents : state → List Obs → List Event
  | _, [] => []
  | s, o :: os => (tickPath s o).events ++ runEvents (tickPath s o).newState os

/-- The per-cycle view of a run: each poll cycle paired with the stored
state at its start. -/
def cycles : state → List Obs → List (state × Obs)
  | _, [] => []
  | s, o :: os => (s, o) :: cycles (tickPath s o).newState os

/-- Scanner for the claim that a `Remove` is never emitted twice in a row
without an intervening `Create`: the flag records whether the last
`Remove`-carrying event has not yet been followed by a `Create`-carrying
event; the result is true when a second `Remove` arrives while the flag
is set. -/
def hasDoubleRemoveAux : Bool → List Event → Bool
  | _, [] => false
  | afterRem, e :: rest =>
    if afterRem && e.Has Op.Remove then true
    else
      hasDoubleRemoveAux
        (if e.Has Op.Remove then true
         else if e.Has Op.Create then false
         else afterRem) rest

/-- True when the event sequence contains a `Remove` followed by another
`Remove` with no `Create` in between. -/
def hasDoubleRemove (evs : List Event) : Bool := hasDoubleRemoveAux false evs

/-- A cycle in which the lstat of the tracked path succeeded. -/
def lstatOkCycle (c : state × Obs) : Bool :=
  match c.2.lstat with
  | .ok _ => true
  | .err _ => false

/-- A cycle that emits a path-level `Remove`: the lstat reports the typed
not-found condition while the stored `info` was non-nil. -/
def selfRemoveCycle (c : state × Obs) : Bool :=
  match c.2.lstat with
  | .err e => e.isNotExist && c.1.info.isSome
  | .ok _ => false

/-- A cycle that emits a target-level `Remove`: the path is observed as a
symlink, readlink succeeds, the target stat fails with a `*fs.PathError`
and the stored `targetInfo` was non-nil. -/
def targetRemoveCycle (c : state × Obs) : Bool :=
  match c.2.lstat with
  | .ok fi =>
    fi.isSymlink &&
      (match c.2.readlink with
       | some _ =>
         (match c.2.statTarget with
          | .err e => e.isPathError && c.1.targetInfo.isSome
          | .ok _ => false)
       | none => false)
  | .err _ => false

/-- A cycle that emits an event carrying the `Create` bit. -/
def createCycle (c : state × Obs) : Bool :=
  ((tickPath c.1 c.2).events.any (fun e => e.Has Op.Create))

/-- Lstat info of a symlink, as observed in the concrete scenarios below. -/
def symFi : FileInfo := { isSymlink := true, size := 0, modTime := 0 }

/-- Stat info of a regular file with five bytes of content. -/
def aFi : FileInfo := { isSymlink := false, size := 5, modTime := 10 }

/-- The typed not-found failure: a `*fs.PathError` satisfying
`os.IsNotExist`. -/
def notFoundErr : GoError := { isPathError := true, isNotExist := true }

/-- A stat failure such as permission denied: still a `*fs.PathError`
(as every `os.Stat` failure is), but not the not-found condition. -/
def permErr : GoError := { isPathError := true, isNotExist := false }

/-- Stored state of a tracked symlink whose target was present in the
previous cycle. -/
def c1s : state :=
  { path := "s", info := some symFi, target := "/a", targetInfo := some aFi }

/-- Cycle observation in which the target stat fails with a
permission-style `*fs.PathError` that is not the not-found condition. -/
def c1o : Obs :=
  { lstat := .ok symFi, readlink := some "/a", statTarget := .err permErr }

/-- Cycle observation: the tracked symlink points at the existing,
non-empty file `/a`. -/
def o1 : Obs := { lstat := .ok symFi, readlink := some "/a", statTarget := .ok aFi }

/-- Cycle observation: the symlink is still in place but its target `/a`
has been deleted (target stat reports the typed not-found condition). -/
def o2 : Obs :=
  { lstat := .ok symFi, readlink := some "/a", statTarget := .err notFoundErr }

/-- Cycle observation: the tracked path itself has been deleted. -/
def o3 : Obs :=
  { lstat := .err notFoundErr, readlink := none, statTarget := .err notFoundErr }

/-- Stored state of a tracked path last seen as an existing regular file
(five bytes, never a symlink), with no target recorded. -/
def c10s : state :=
  { path := "s", info := some aFi, target := "", targetInfo := none }

/-- Cycle observation in which the lstat of the tracked path itself fails
with a permission-style error that is not the not-found condition. -/
def o5 : Obs :=
  { lstat := .err permErr, readlink := none, statTarget := .err notFoundErr }

/-- Cycle observation in which the path is a symlink but reading the link
itself fails. -/
def o6 : Obs :=
  { lstat := .ok symFi, readlink := none, statTarget := .err notFoundErr }

/-- Cycle observation in which the tracked path is an existing regular
file with content. -/
def o7 : Obs :=
  { lstat := .ok aFi, readlink := none, statTarget := .err notFoundErr }

/-- After any step, the non-symlink branch stores exactly the fresh lstat
info with the target fields cleared. -/
theorem regularStep_newState (s : state) (fi : FileInfo) :
    (regularStep s fi).newState =
      { path := s.path, info := some fi, target := "", targetInfo := none } := by
  rcases h : s.info with _ | oldInfo <;> simp [regularStep, h]
  split <;> rfl

/-- C5: when the non-following stat of the tracked path fails with an
error other than not-found, that error is sent on the Errors channel, no
event is emitted for the path in that cycle, and the stored entry state
is left unchanged. -/
theorem tickPath_lstat_error_unchanged (s : state) (o : Obs) (e : GoError)
    (hl : o.lstat = .err e) (hne : e.isNotExist = false) :
    tickPath s o = { newState := s, events := [], errors := [e] } := by
  simp [tickPath, hl, hne]

/-- Witness for `tickPath_lstat_error_unchanged` at a concrete state and a
permission-style lstat failure. -/
theorem tickPath_lstat_error_unchanged_witness :
    o5.lstat = .err permErr ∧ permErr.isNotExist = false ∧
    tickPath c1s o5 = { newState := c1s, events := [], errors := [permErr] } :=
  ⟨by decide, by decide,
   tickPath_lstat_error_unchanged c1s o5 permErr (by decide) (by decide)⟩

/-- C7: when the tracked path is observed as a symlink but reading the
link itself fails, the cycle emits no event, surfaces no error, and
leaves the stored state for the path untouched. -/
theorem tickPath_readlink_error_skips (s : state) (o : Obs) (fi : FileInfo)
    (hl : o.lstat = .ok fi) (hsym : fi.isSymlink = true) (hrl : o.readlink = none) :
    tickPath s o = { newState := s, events := [], errors := [] } := by
  simp [tickPath, hl, hsym, hrl]

/-- Witness for `tickPath_readlink_error_skips` at a concrete symlink
state whose readlink fails. -/
theorem tickPath_readlink_error_skips_witness :
    o6.lstat = .ok symFi ∧ symFi.isSymlink = true ∧ o6.readlink = none ∧
    tickPath c1s o6 = { newState := c1s, events := [], errors := [] } :=
  ⟨by decide, by decide, by decide,
   tickPath_readlink_error_skips c1s o6 symFi (by decide) (by decide) (by decide)⟩

/-- C3: a tracked path produces at most one event per poll cycle; distinct
causes are combined into the single event's bitmask, never split. -/
theorem tickPath_at_most_one_event (s : state) (o : Obs) :
    (tickPath s o).events.length ≤ 1 := by
  rcases o with ⟨ls, rl, st⟩
  rcases ls with fi | e
  · by_cases hsym : fi.isSymlink
    · rcases rl with _ | raw
      · simp [tickPath, hsym]
      · rcases st with ti | e2 <;>
          rcases h : s.targetInfo with _ | oldTi <;>
          simp [tickPath, symlinkStep, hsym, h]
        · split <;> simp
        · split <;> simp
    · simp only [tickPath, regularStep, hsym]
      rcases h : s.info with _ | oldInfo <;> simp [h]
      split <;> simp
  · by_cases hne : e.isNotExist <;> simp [tickPath, hne]
    split <;> simp

/-- C6: a non-symlink path whose previous selfInfo was nil and which now
exists, or a symlink whose previous targetInfo was nil and whose target
now exists, produces exactly one Create event, with Write OR-ed into the
bitmask exactly when the observed size is positive. -/
theorem tickPath_create_on_appearance :
    (∀ (s : state) (o : Obs) (fi : FileInfo),
      o.lstat = .ok fi → fi.isSymlink = false → s.info = none →
      (tickPath s o).events =
        [{ Name := s.path,
           op := if fi.size > 0 then Op.Create ||| Op.Write else Op.Create }]) ∧
    (∀ (s : state) (o : Obs) (fi ti : FileInfo) (raw : String),
      o.lstat = .ok fi → fi.isSymlink = true → o.readlink = some raw →
      o.statTarget = .ok ti → s.targetInfo = none →
      (tickPath s o).events =
        [{ Name := s.path,
           op := if ti.size > 0 then Op.Create ||| Op.Write else Op.Create }]) := by
  constructor
  · intro s o fi hl hsym hinfo
    simp [tickPath, regularStep, hl, hsym, hinfo]
  · intro s o fi ti raw hl hsym hrl hst htarget
    simp [tickPath, symlinkStep, hl, hsym, hrl, hst, htarget]

/-- Witness for `tickPath_create_on_appearance`: a five-byte regular file
appears at a previously absent tracked path. -/
theorem tickPath_create_on_appearance_witness :
    o7.lstat = .ok aFi ∧ aFi.isSymlink = false ∧ (initState "f").info = none ∧
    (tickPath (initState "f") o7).events =
      [{ Name := "f", op := Op.Create ||| Op.Write }] :=
  ⟨by decide, by decide, by decide, by
    have h := tickPath_create_on_appearance.1 (initState "f") o7 aFi
      (by decide) (by decide) (by decide)
    simpa [initState, aFi] using h⟩

/-- C4: for a tracked symlink whose target was present in the previous
cycle and is present now, a single Write event is emitted exactly when
the resolved target path, the target size, or the target modification
time changed. -/
theorem tickPath_symlink_write_iff_changed (s : state) (o : Obs)
    (fi oldTi ti : FileInfo) (raw : String)
    (hl : o.lstat = .ok fi) (hsym : fi.isSymlink = true)
    (hrl : o.readlink = some raw) (hst : o.statTarget = .ok ti)
    (hold : s.targetInfo = some oldTi) :
    (tickPath s o).events =
      (if s.target ≠ resolveTarget s.path raw ∨ oldTi.size ≠ ti.size ∨
          oldTi.modTime ≠ ti.modTime
       then [{ Name := s.path, op := Op.Write }] else []) := by
  simp [tickPath, symlinkStep, hl, hsym, hrl, hst, hold]
  split <;> split <;> simp_all

/-- Witness for `tickPath_symlink_write_iff_changed` at a concrete symlink
whose target is unchanged between the two cycles. -/
theorem tickPath_symlink_write_iff_changed_witness :
    c1s.targetInfo = some aFi ∧
    (tickPath c1s o1).events =
      (if c1s.target ≠ resolveTarget c1s.path "/a" ∨ aFi.size ≠ aFi.size ∨
          aFi.modTime ≠ aFi.modTime
       then [{ Name := c1s.path, op := Op.Write }] else []) :=
  ⟨by decide, tickPath_symlink_write_iff_changed c1s o1 symFi aFi aFi "/a"
    (by decide) (by decide) (by decide) (by decide) (by decide)⟩

/-- C10: a path last seen as an existing regular file that is now observed
as a symlink to an existing target produces a Create event (with Write
OR-ed in when the target size is positive), even though the path existed
in both cycles and no Remove was emitted in between. -/
theorem tickPath_file_to_symlink_create (s : state) (o : Obs)
    (fi0 fi ti : FileInfo) (raw : String)
    (_hinfo : s.info = some fi0) (_h0 : fi0.isSymlink = false)
    (htarget : s.targetInfo = none)
    (hl : o.lstat = .ok fi) (hsym : fi.isSymlink = true)
    (hrl : o.readlink = some raw) (hst : o.statTarget = .ok ti) :
    (tickPath s o).events =
      [{ Name := s.path,
         op := if ti.size > 0 then Op.Create ||| Op.Write else Op.Create }] := by
  simp [tickPath, symlinkStep, hl, hsym, hrl, hst, htarget]

/-- Witness for `tickPath_file_to_symlink_create`: a regular file replaced
by a symlink to the existing non-empty file `/a`. -/
theorem tickPath_file_to_symlink_create_witness :
    c10s.info = some aFi ∧ aFi.isSymlink = false ∧ c10s.targetInfo = none ∧
    (tickPath c10s o1).events = [{ Name := "s", op := Op.Create ||| Op.Write }] :=
  ⟨by decide, by decide, by decide, by
    have h := tickPath_file_to_symlink_create c10s o1 aFi symFi aFi "/a"
      (by decide) (by decide) (by decide) (by decide) (by decide) (by decide) (by decide)
    simpa [c10s, aFi] using h⟩

/-- C9: when two consecutive cycles observe identical lstat, readlink and
target-stat outcomes, the second cycle leaves the stored state exactly as
the first left it and emits no event. -/
theorem tickPath_idempotent (s : state) (o : Obs) :
    (tickPath (tickPath s o).newState o).newState = (tickPath s o).newState ∧
    (tickPath (tickPath s o).newState o).events = [] := by
  rcases o with ⟨ls, rl, st⟩
  rcases ls with fi | e
  · by_cases hsym : fi.isSymlink
    · rcases rl with _ | raw
      · simp [tickPath, hsym]
      · rcases st with ti | e2 <;>
          rcases h : s.targetInfo with _ | oldTi <;>
          simp [tickPath, symlinkStep, hsym, h] <;> split <;> simp_all
    · have hns : (tickPath s ⟨.ok fi, rl, st⟩).newState =
          { path := s.path, info := some fi, target := "", targetInfo := none } := by
        simp [tickPath, hsym, regularStep_newState]
      rw [hns]
      constructor
      · simp [tickPath, hsym, regularStep]
      · simp [tickPath, hsym, regularStep]
  · by_cases hne : e.isNotExist <;>
      rcases h : s.info with _ | oldInfo <;> simp [tickPath, hne, h]

/-- C8: in every state reachable from construction, a nil selfInfo forces
an empty targetPath and nil targetInfo, and a non-nil targetInfo forces a
selfInfo whose symlink flag is set. -/
theorem reachable_state_invariant (s : state) (h : Reachable s) :
    (s.info = none → s.target = "" ∧ s.targetInfo = none) ∧
    (∀ ti, s.targetInfo = some ti → ∃ fi, s.info = some fi ∧ fi.isSymlink = true) := by
  induction h with
  | init p => simp [initState]
  | step s o _ ih =>
    rcases o with ⟨ls, rl, st⟩
    rcases ls with fi | e
    · by_cases hsym : fi.isSymlink
      · rcases rl with _ | raw
        · simpa [tickPath, hsym] using ih
        · rcases st with ti | e2 <;> simp [tickPath, symlinkStep, hsym]
      · simp [tickPath, hsym, regularStep_newState]
    · by_cases hne : e.isNotExist
      · rcases hinfo : s.info with _ | oldInfo
        · simpa [tickPath, hne, hinfo] using ih
        · simp [tickPath, hne, hinfo]
      · simpa [tickPath, hne] using ih

/-- Witness for `reachable_state_invariant` at the constructed initial
state of a tracked path. -/
theorem reachable_state_invariant_witness :
    ((initState "f").info = none →
      (initState "f").target = "" ∧ (initState "f").targetInfo = none) ∧
    (∀ ti, (initState "f").targetInfo = some ti →
      ∃ fi, (initState "f").info = some fi ∧ fi.isSymlink = true) :=
  reachable_state_invariant (initState "f") (Reachable.init "f")

/-- C1 counterexample: a target stat failure of `*fs.PathError` type that
is not the typed not-found condition (permission denied, say) is handled
as the Remove signal — a Remove event is emitted and nothing is sent on
the Errors channel — contradicting the claim that only the typed
not-found outcome is treated as removal. -/
theorem tickPath_target_stat_error_counterexample :
    permErr.isPathError = true ∧ permErr.isNotExist = false ∧
    (tickPath c1s c1o).events = [{ Name := "s", op := Op.Remove }] ∧
    (tickPath c1s c1o).errors = [] := by decide

/-- C1 amended: the target stat outcome is split on whether the failure
is a `*fs.PathError`, not on the not-found condition: any `*fs.PathError`
(not-found or otherwise) is handled as the Remove signal and surfaced
nowhere, while only failures that are not a `*fs.PathError` are sent on
the Errors channel without touching the event stream. -/
theorem tickPath_target_stat_error_amended (s : state) (o : Obs)
    (fi : FileInfo) (raw : String) (e : GoError)
    (hl : o.lstat = .ok fi) (hsym : fi.isSymlink = true)
    (hrl : o.readlink = some raw) (hst : o.statTarget = .err e) :
    (e.isPathError = true →
      (tickPath s o).errors = [] ∧
      (tickPath s o).events =
        (if s.targetInfo.isSome then [{ Name := s.path, op := Op.Remove }] else [])) ∧
    (e.isPathError = false →
      (tickPath s o).errors = [e] ∧ (tickPath s o).events = []) := by
  constructor <;> intro hpe <;>
    rcases h : s.targetInfo with _ | oldTi <;>
    simp [tickPath, symlinkStep, hl, hsym, hrl, hst, hpe, h]

/-- Witness for `tickPath_target_stat_error_amended` at the concrete
permission-failure cycle of the counterexample. -/
theorem tickPath_target_stat_error_amended_witness :
    c1o.statTarget = .err permErr ∧ permErr.isPathError = true ∧
    (tickPath c1s c1o).errors = [] ∧
    (tickPath c1s c1o).events =
      (if c1s.targetInfo.isSome then [{ Name := c1s.path, op := Op.Remove }] else []) :=
  ⟨by decide, by decide,
   (tickPath_target_stat_error_amended c1s c1o symFi "/a" permErr
     (by decide) (by decide) (by decide) (by decide)).1 (by decide)⟩

/-- C2 counterexample: from the constructed state, the three cycles
"symlink to existing non-empty target appears", "target deleted",
"symlink itself deleted" yield the event sequence
Create-and-Write, Remove, Remove — two Remove events in a row with no
intervening Create for the path. -/
theorem watcher_double_remove_counterexample :
    runEvents (initState "s") [o1, o2, o3] =
      [{ Name := "s", op := Op.Create ||| Op.Write },
       { Name := "s", op := Op.Remove }, { Name := "s", op := Op.Remove }] ∧
    hasDoubleRemove (runEvents (initState "s") [o1, o2, o3]) = true := by decide

/-- A cycle that emits a path-level Remove stores a cleared entry, so its
selfInfo is nil afterwards. -/
theorem selfRemoveCycle_clears_info (s : state) (o : Obs)
    (h : selfRemoveCycle (s, o) = true) : (tickPath s o).newState.info = none := by
  rcases hls : o.lstat with fi | e <;> simp [selfRemoveCycle, hls] at h
  obtain ⟨hne, hsome⟩ := h
  simp [tickPath, hls, hne, hsome]

/-- A cycle that emits a target-level Remove stores a nil targetInfo. -/
theorem targetRemoveCycle_clears_targetInfo (s : state) (o : Obs)
    (h : targetRemoveCycle (s, o) = true) :
    (tickPath s o).newState.targetInfo = none := by
  rcases hls : o.lstat with fi | e <;> simp [targetRemoveCycle, hls] at h
  rcases hrl : o.readlink with _ | raw <;> rw [hrl] at h <;> simp at h
  rcases hst : o.statTarget with ti | e2 <;> rw [hst] at h <;> simp at h
  obtain ⟨hsym, hpe, hsome⟩ := h
  simp [tickPath, symlinkStep, hls, hsym, hrl, hst]

/-- A cycle whose lstat fails leaves an entry with nil selfInfo untouched. -/
theorem lstat_err_state_unchanged (s : state) (o : Obs)
    (hinfo : s.info = none) (hok : lstatOkCycle (s, o) = false) :
    (tickPath s o).newState = s := by
  rcases hls : o.lstat with fi | e
  · simp [lstatOkCycle, hls] at hok
  · by_cases hne : e.isNotExist <;> simp [tickPath, hls, hne, hinfo]

/-- Starting from a nil selfInfo, no path-level Remove can occur while
every cycle's lstat keeps failing. -/
theorem no_lstat_ok_no_selfRemove :
    ∀ (os : List Obs) (s : state), s.info = none →
      (∀ c ∈ cycles s os, lstatOkCycle c = false) →
      ∀ c ∈ cycles s os, selfRemoveCycle c = false := by
  intro os
  induction os with
  | nil => intro s _ _ c hc; simp [cycles] at hc
  | cons o os ih =>
    intro s hinfo hok c hc
    have hok0 : lstatOkCycle (s, o) = false := hok (s, o) (by simp [cycles])
    rw [cycles] at hc
    rcases List.mem_cons.mp hc with rfl | htail
    · rcases hls : o.lstat with fi | e
      · simp [selfRemoveCycle, hls]
      · simp [selfRemoveCycle, hls, hinfo]
    · have hstep := lstat_err_state_unchanged s o hinfo hok0
      rw [hstep] at htail
      exact ih s hinfo
        (fun c2 hc2 => hok c2 (by rw [cycles]; rw [hstep]; exact List.mem_cons_of_mem _ hc2))
        c htail

/-- Starting from a nil targetInfo, the stored targetInfo stays nil in
any cycle that does not emit a Create. -/
theorem no_create_targetInfo_stays_none (s : state) (o : Obs)
    (htarget : s.targetInfo = none) (hcr : createCycle (s, o) = false) :
    (tickPath s o).newState.targetInfo = none := by
  rcases hls : o.lstat with fi | e
  · by_cases hsym : fi.isSymlink
    · rcases hrl : o.readlink with _ | raw
      · simp [tickPath, hls, hsym, hrl, htarget]
      · rcases hst : o.statTarget with ti | e2
        · exfalso
          simp [createCycle, tickPath, symlinkStep, hls, hsym, hrl, hst, htarget,
            Event.Has, Op.Has, Op.Create, Op.Write] at hcr
          split at hcr <;> simp_all
        · simp [tickPath, symlinkStep, hls, hsym, hrl, hst]
    · simp [tickPath, hls, hsym, regularStep_newState]
  · by_cases hne : e.isNotExist
    · rcases hinfo : s.info with _ | oldInfo <;> simp [tickPath, hls, hne, hinfo, htarget]
    · simp [tickPath, hls, hne, htarget]

/-- Starting from a nil targetInfo, no target-level Remove can occur
before a Create is emitted for the path. -/
theorem no_create_no_targetRemove :
    ∀ (os : List Obs) (s : state), s.targetInfo = none →
      (∀ c ∈ cycles s os, createCycle c = false) →
      ∀ c ∈ cycles s os, targetRemoveCycle c = false := by
  intro os
  induction os with
  | nil => intro s _ _ c hc; simp [cycles] at hc
  | cons o os ih =>
    intro s htarget hcr c hc
    have hcr0 : createCycle (s, o) = false := hcr (s, o) (by simp [cycles])
    rw [cycles] at hc
    rcases List.mem_cons.mp hc with rfl | htail
    · rcases hls : o.lstat with fi | e
      · rcases hrl : o.readlink with _ | raw <;>
          rcases hst : o.statTarget with ti | e2 <;>
          simp [targetRemoveCycle, hls, hrl, hst, htarget]
      · simp [targetRemoveCycle, hls]
    · exact ih (tickPath s o).newState
        (no_create_targetInfo_stays_none s o htarget hcr0)
        (fun c2 hc2 => hcr c2 (by rw [cycles]; exact List.mem_cons_of_mem _ hc2))
        c htail

/-- C2 amended: Remove events of the same kind never repeat without the
required intervening observation. A cycle emitting a path-level Remove
(lstat reports not-found while selfInfo was non-nil) leaves selfInfo nil,
and from a nil selfInfo no further path-level Remove occurs until a cycle
whose lstat succeeds; a cycle emitting a target-level Remove (the target
stat fails as a `*fs.PathError` while targetInfo was non-nil) leaves
targetInfo nil, and from a nil targetInfo no further target-level Remove
occurs until a Create is emitted for the path. Two consecutive Remove
events of different kinds can occur with no intervening Create, as the
counterexample shows. -/
theorem watcher_remove_alternation_amended :
    (∀ (s : state) (o : Obs), selfRemoveCycle (s, o) = true →
      (tickPath s o).newState.info = none) ∧
    (∀ (s : state) (o : Obs), targetRemoveCycle (s, o) = true →
      (tickPath s o).newState.targetInfo = none) ∧
    (∀ (os : List Obs) (s : state), s.info = none →
      (∀ c ∈ cycles s os, lstatOkCycle c = false) →
      ∀ c ∈ cycles s os, selfRemoveCycle c = false) ∧
    (∀ (os : List Obs) (s : state), s.targetInfo = none →
      (∀ c ∈ cycles s os, createCycle c = false) →
      ∀ c ∈ cycles s os, targetRemoveCycle c = false) :=
  ⟨selfRemoveCycle_clears_info, targetRemoveCycle_clears_targetInfo,
   no_lstat_ok_no_selfRemove, no_create_no_targetRemove⟩

/-- Witness for `watcher_remove_alternation_amended`: the concrete cycle
deleting the tracked symlink itself emits a path-level Remove and stores
a nil selfInfo. -/
theorem watcher_remove_alternation_amended_witness :
    selfRemoveCycle (c1s, o3) = true ∧ (tickPath c1s o3).newState.info = none :=
  ⟨by decide, watcher_remove_alternation_amended.1 c1s o3 (by decide)⟩
